import Mathlib

/-!
Verification of the conference-agent backend (python-backend-conf).

This file shallowly embeds the routing, context-loading and aggregation
logic of the repository in Lean 4 and proves the specification claims
about it.  Python strings are modelled as Lean `String`; operations that
the kernel cannot reduce (`String.toLower`, `String.trim`, `str.split`)
are re-implemented over `String.data` (a `List Char`) with the same
ASCII semantics the code relies on.  A SQL `NULL` / absent JSON key is
modelled as `none`; `dict.get(k, d)` becomes `Option.getD`.  The
database is an external collaborator: each `db_client.query` call site
becomes an `Except String` parameter (an error models a raised lookup
exception, `.ok` the returned rows).
-/

/-- ASCII lower-casing of one character, the fragment of Python's
`str.lower` that the code's keyword matching relies on. -/
def charLower (c : Char) : Char :=
  if 65 ≤ c.toNat ∧ c.toNat ≤ 90 then Char.ofNat (c.toNat + 32) else c

/-- Kernel-reducible model of `str.lower()` (ASCII range). -/
def strLower (s : String) : String := ⟨s.data.map charLower⟩

/-- Whitespace test matching Python's `str.strip` / `str.split` defaults
on the characters that occur in this code base. -/
def isWsChar (c : Char) : Bool := c == ' ' || c == '\t' || c == '\n' || c == '\r'

/-- Kernel-reducible model of `str.strip()`. -/
def strTrim (s : String) : String :=
  ⟨((s.data.dropWhile isWsChar).reverse.dropWhile isWsChar).reverse⟩

/-- Boolean list-prefix test (helper for the substring test). -/
def listHasPre [DecidableEq α] : List α → List α → Bool
  | [], _ => true
  | _ :: _, [] => false
  | a :: as, b :: bs => (if a = b then true else false) && listHasPre as bs

/-- Boolean contiguous-sublist test (helper for the substring test). -/
def listHasInf [DecidableEq α] (needle : List α) : List α → Bool
  | [] => needle.isEmpty
  | b :: bs => listHasPre needle (b :: bs) || listHasInf needle bs

/-- Model of Python's `needle in hay` on strings (substring test). -/
def strContainsSub (hay needle : String) : Bool := listHasInf needle.data hay.data

/-- Accumulator loop for `pySplit`. -/
def splitWsAux : List Char → List Char → List String
  | [], acc => if acc.isEmpty then [] else [⟨acc.reverse⟩]
  | c :: cs, acc =>
    if isWsChar c then
      (if acc.isEmpty then splitWsAux cs [] else ⟨acc.reverse⟩ :: splitWsAux cs [])
    else splitWsAux cs (c :: acc)

/-- Model of Python's `str.split()` with no argument: split on runs of
whitespace, discarding empty pieces. -/
def pySplit (s : String) : List String := splitWsAux s.data []

/-- Boolean lexicographic `≤` on character lists (code-point order, as
Python's `sorted` uses on the ASCII data of this system). -/
def strLeB : List Char → List Char → Bool
  | [], _ => true
  | _ :: _, [] => false
  | a :: as, b :: bs =>
    if a.toNat < b.toNat then true
    else if a.toNat = b.toNat then strLeB as bs
    else false

/-- Boolean lexicographic `<` on character lists. -/
def strLtB : List Char → List Char → Bool
  | [], [] => false
  | [], _ :: _ => true
  | _ :: _, [] => false
  | a :: as, b :: bs =>
    if a.toNat < b.toNat then true
    else if a.toNat = b.toNat then strLtB as bs
    else false

/-- Python truthiness of an optional string (a `None` or empty value is
falsy): models `if item.get(key):`. -/
def pyTruthy (o : Option String) : Bool := o.getD "" != ""

/-- Insertion step of the deterministic sort used to model ordering. -/
def insertByLe (le : α → α → Bool) (a : α) : List α → List α
  | [] => [a]
  | b :: bs => if le a b then a :: b :: bs else b :: insertByLe le a bs

/-- Deterministic comparison sort used to model the store's `ORDER BY`
and Python's `sorted`.  No claim observes the relative order of
equal keys, so tie order is unspecified here. -/
def sortByLe (le : α → α → Bool) : List α → List α
  | [] => []
  | a :: as => insertByLe le a (sortByLe le as)

/-- Routing targets of the system (the three agents of main.py). -/
inductive AgentId
  | schedule
  | networking
  | triage
deriving DecidableEq

/-- Nested detail bag of a `users` row (main.py / networking tools read
`user_name`, `email`, `firstName`, `lastName`, `registration_id`). -/
structure UserDetails where
  user_name : Option String
  email : Option String
  firstName : Option String
  lastName : Option String
  registration_id : Option String
deriving DecidableEq

/-- One `users` row as selected by the code (`id, details`). -/
structure UserRow where
  id : String
  details : UserDetails
deriving DecidableEq

/-- One `conference_schedules` row. -/
structure SessionRow where
  id : Nat
  topic : Option String
  speaker_name : Option String
  conference_date : Option String
  start_time : Option String
  end_time : Option String
  conference_room_name : Option String
  track_name : Option String
deriving DecidableEq

/-- Joined user fields read through `business.get("users", {})`. -/
structure BizUser where
  user_name : Option String
  email : Option String
deriving DecidableEq

/-- Nested detail bag of an `ib_businesses` row. -/
structure BizDetails where
  companyName : Option String
  industrySector : Option String
  subSector : Option String
  location : Option String
  positionTitle : Option String
deriving DecidableEq

/-- One `ib_businesses` row joined with its user. -/
structure BusinessRow where
  id : Nat
  user_id : String
  details : BizDetails
  users : BizUser
deriving DecidableEq

/-- Session context of context.py (`AirlineAgentContext`), restricted to
the fields this subsystem reads or writes. -/
structure AirlineAgentContext where
  confirmation_number : Option String
  account_number : Option String
  registration_id : Option String
  user_id : Option String
  organization_id : Option String
  user_name : Option String
  email : Option String
  is_conference_attendee : Bool
  conference_name : Option String
deriving DecidableEq

/-- The freshly constructed context (`AirlineAgentContext()` with all
pydantic defaults). -/
def emptyContext : AirlineAgentContext :=
  { confirmation_number := none, account_number := none, registration_id := none,
    user_id := none, organization_id := none, user_name := none, email := none,
    is_conference_attendee := false, conference_name := none }

/-- One consistent snapshot of the three collections, with a per-table
`Except`: `.error` models the underlying client raising on that table,
`.ok` the rows it returns. -/
structure Db where
  users : Except String (List UserRow)
  schedules : Except String (List SessionRow)
  businesses : Except String (List BusinessRow)

/-- Row cap of the query gateway (database.py: `if limit: query =
query.limit(limit)`), so the cap is applied only when `limit` is a
truthy value; the capping itself ("at most n rows") is the store's
documented behaviour. -/
def gatewayLimit (limit : Option Nat) (rows : List α) : List α :=
  match limit with
  | none => rows
  | some n => if n = 0 then rows else rows.take n

/-- In-memory truncation used by the networking tools (`if limit:
filtered = filtered[:limit]`): same truthiness gate, applied to the
already-filtered list. -/
def pyListTrunc (limit : Option Nat) (xs : List α) : List α :=
  match limit with
  | none => xs
  | some n => if n = 0 then xs else xs.take n

/-- One optional equality filter of get_conference_sessions: the Python
code adds `filters[key] = value` only when the argument is truthy, and
the gateway turns each entry into an equality test (a `NULL` column
never equals a filter value). -/
def eqFilterOpt (fil : Option String) (field : Option String) : Bool :=
  match fil with
  | none => true
  | some v => if v = "" then true else field == some v

/-- Conjunction of the five optional equality filters built by
get_conference_sessions. -/
def sessionMatches (speaker_name topic conference_room_name track_name conference_date :
    Option String) (r : SessionRow) : Bool :=
  eqFilterOpt speaker_name r.speaker_name &&
  eqFilterOpt topic r.topic &&
  eqFilterOpt conference_room_name r.conference_room_name &&
  eqFilterOpt track_name r.track_name &&
  eqFilterOpt conference_date r.conference_date

/-- Store-side `ORDER BY conference_date, start_time` requested by the
session queries (`NULL` ordered as the empty string; no claim observes
the order). -/
def orderSessions (rows : List SessionRow) : List SessionRow :=
  sortByLe (fun a b =>
    if strLtB (a.conference_date.getD "").data (b.conference_date.getD "").data then true
    else if a.conference_date.getD "" = b.conference_date.getD "" then
      strLeB (a.start_time.getD "").data (b.start_time.getD "").data
    else false) rows

/-- Rendering of one session entry with its speaker line (used by
get_conference_sessions and search_sessions_by_topic). -/
def renderSessionFull (i : Nat) (s : SessionRow) : String :=
  toString i ++ ". **" ++ s.topic.getD "Unknown Topic" ++ "**\n" ++
  "   Speaker: " ++ s.speaker_name.getD "TBA" ++ "\n" ++
  "   Date: " ++ s.conference_date.getD "TBA" ++ "\n" ++
  "   Time: " ++ s.start_time.getD "TBA" ++ " - " ++ s.end_time.getD "TBA" ++ "\n" ++
  "   Room: " ++ s.conference_room_name.getD "TBA" ++ "\n" ++
  "   Track: " ++ s.track_name.getD "TBA" ++ "\n\n"

/-- Rendering of one session entry without the speaker line (used by
search_sessions_by_speaker). -/
def renderSessionNoSpk (i : Nat) (s : SessionRow) : String :=
  toString i ++ ". **" ++ s.topic.getD "Unknown Topic" ++ "**\n" ++
  "   Date: " ++ s.conference_date.getD "TBA" ++ "\n" ++
  "   Time: " ++ s.start_time.getD "TBA" ++ " - " ++ s.end_time.getD "TBA" ++ "\n" ++
  "   Room: " ++ s.conference_room_name.getD "TBA" ++ "\n" ++
  "   Track: " ++ s.track_name.getD "TBA" ++ "\n\n"

/-- schedule_agent_tools.get_conference_sessions: filtered, ordered,
limited session listing; any raised lookup error is caught and turned
into an error string. -/
def get_conference_sessions (tbl : Except String (List SessionRow))
    (speaker_name topic conference_room_name track_name conference_date : Option String)
    (limit : Option Nat) : String :=
  match tbl with
  | .error e => "Error fetching conference sessions: " ++ e
  | .ok rows =>
    let sessions := gatewayLimit limit (orderSessions (rows.filter
      (sessionMatches speaker_name topic conference_room_name track_name conference_date)))
    if sessions.isEmpty then
      "No conference sessions found matching the specified criteria."
    else
      "Found " ++ toString sessions.length ++ " conference session(s):\n\n" ++
        String.join ((sessions.enumFrom 1).map (fun p => renderSessionFull p.1 p.2))

/-- Keep test shared by the unique speaker/track/room aggregators:
`if item.get(field) and item[field].strip()` (discards absent, empty
and whitespace-only values). -/
def keepName (o : Option String) : Bool := pyTruthy o && strTrim (o.getD "") != ""

/-- Sorted deduplicated list of the kept values of one field, i.e.
Python's `sorted(set(v for v in vs if v and v.strip()))`. -/
def sortedUniqueKept (vs : List (Option String)) : List String :=
  sortByLe (fun a b => strLeB a.data b.data)
    ((vs.filterMap (fun o => if keepName o then o else none)).dedup)

/-- schedule_agent_tools.get_all_speakers. -/
def get_all_speakers (tbl : Except String (List SessionRow)) : String :=
  match tbl with
  | .error e => "Error fetching speakers: " ++ e
  | .ok rows =>
    if rows.isEmpty then "No speakers found in the conference database."
    else
      let unique_speakers := sortedUniqueKept (rows.map (fun r => r.speaker_name))
      if unique_speakers.isEmpty then "No valid speaker names found."
      else
        "**Conference Speakers (" ++ toString unique_speakers.length ++ " total):**\n\n" ++
          String.join ((unique_speakers.enumFrom 1).map
            (fun p => toString p.1 ++ ". " ++ p.2 ++ "\n"))

/-- schedule_agent_tools.get_all_tracks. -/
def get_all_tracks (tbl : Except String (List SessionRow)) : String :=
  match tbl with
  | .error e => "Error fetching tracks: " ++ e
  | .ok rows =>
    if rows.isEmpty then "No tracks found in the conference database."
    else
      let unique_tracks := sortedUniqueKept (rows.map (fun r => r.track_name))
      if unique_tracks.isEmpty then "No valid track names found."
      else
        "**Conference Tracks (" ++ toString unique_tracks.length ++ " total):**\n\n" ++
          String.join ((unique_tracks.enumFrom 1).map
            (fun p => toString p.1 ++ ". " ++ p.2 ++ "\n"))

/-- schedule_agent_tools.get_all_rooms. -/
def get_all_rooms (tbl : Except String (List SessionRow)) : String :=
  match tbl with
  | .error e => "Error fetching rooms: " ++ e
  | .ok rows =>
    if rows.isEmpty then "No rooms found in the conference database."
    else
      let unique_rooms := sortedUniqueKept (rows.map (fun r => r.conference_room_name))
      if unique_rooms.isEmpty then "No valid room names found."
      else
        "**Conference Rooms (" ++ toString unique_rooms.length ++ " total):**\n\n" ++
          String.join ((unique_rooms.enumFrom 1).map
            (fun p => toString p.1 ++ ". " ++ p.2 ++ "\n"))

/-- schedule_agent_tools.search_sessions_by_speaker (exact-match store
filter on the speaker name, same ordering as the listing). -/
def search_sessions_by_speaker (tbl : Except String (List SessionRow))
    (speaker_name : String) : String :=
  match tbl with
  | .error e => "Error searching sessions: " ++ e
  | .ok rows =>
    let sessions := orderSessions (rows.filter (fun r => r.speaker_name == some speaker_name))
    if sessions.isEmpty then "No sessions found for speaker: " ++ speaker_name
    else
      "**Sessions by " ++ speaker_name ++ " (" ++ toString sessions.length ++
        " session(s)):**\n\n" ++
        String.join ((sessions.enumFrom 1).map (fun p => renderSessionNoSpk p.1 p.2))

/-- schedule_agent_tools.search_sessions_by_topic (fetch all rows, then
case-insensitive substring match against the topic in memory). -/
def search_sessions_by_topic (tbl : Except String (List SessionRow))
    (topic_keyword : String) : String :=
  match tbl with
  | .error e => "Error searching sessions: " ++ e
  | .ok rows =>
    let matching := rows.filter
      (fun r => strContainsSub (strLower (r.topic.getD "")) (strLower topic_keyword))
    if matching.isEmpty then "No sessions found containing topic keyword: " ++ topic_keyword
    else
      "**Sessions containing \x27" ++ topic_keyword ++ "\x27 (" ++
        toString matching.length ++ " session(s)):**\n\n" ++
        String.join ((matching.enumFrom 1).map (fun p => renderSessionFull p.1 p.2))

/-- Unique-speaker figure of get_session_count's additional stats: a
name is added whenever it is Python-truthy, so a whitespace-only name
is counted here. -/
def sessionStatSpeakers (rows : List SessionRow) : Nat :=
  ((rows.filterMap (fun r => if pyTruthy r.speaker_name then r.speaker_name else none)).dedup).length

/-- Unique-track figure of get_session_count's additional stats. -/
def sessionStatTracks (rows : List SessionRow) : Nat :=
  ((rows.filterMap (fun r => if pyTruthy r.track_name then r.track_name else none)).dedup).length

/-- Unique-room figure of get_session_count's additional stats. -/
def sessionStatRooms (rows : List SessionRow) : Nat :=
  ((rows.filterMap (fun r => if pyTruthy r.conference_room_name then r.conference_room_name else none)).dedup).length

/-- schedule_agent_tools.get_session_count.  The function performs two
queries (an id-select for the count, then a field-select for the
stats); each call site is one `Except` parameter. -/
def get_session_count (q1 q2 : Except String (List SessionRow)) : String :=
  match q1 with
  | .error e => "Error getting session count: " ++ e
  | .ok sessions =>
    let count := sessions.length
    let base := "**Total Conference Sessions:** " ++ toString count
    if count > 0 then
      match q2 with
      | .error e => "Error getting session count: " ++ e
      | .ok full =>
        base ++ "\n**Additional Stats:**" ++
          "\n- Unique Speakers: " ++ toString (sessionStatSpeakers full) ++
          "\n- Unique Tracks: " ++ toString (sessionStatTracks full) ++
          "\n- Unique Rooms: " ++ toString (sessionStatRooms full)
    else base

/-- Deduplicated-speaker figure of get_speaker_count: absent, empty and
whitespace-only names are discarded before deduplication. -/
def speakerCountFigure (rows : List SessionRow) : Nat :=
  ((rows.filterMap (fun r => if keepName r.speaker_name then r.speaker_name else none)).dedup).length

/-- schedule_agent_tools.get_speaker_count. -/
def get_speaker_count (tbl : Except String (List SessionRow)) : String :=
  match tbl with
  | .error e => "Error getting speaker count: " ++ e
  | .ok rows =>
    if rows.isEmpty then "**Total Unique Speakers:** 0"
    else "**Total Unique Speakers:** " ++ toString (speakerCountFigure rows)

/-- One optional in-memory substring filter of search_businesses: the
code applies the filter only when the argument is truthy, matching
`arg.lower() in details.get(field, "").lower()`. -/
def bizMatchOpt (fil : Option String) (get : BusinessRow → Option String)
    (b : BusinessRow) : Bool :=
  match fil with
  | none => true
  | some f =>
    if f = "" then true
    else strContainsSub (strLower ((get b).getD "")) (strLower f)

/-- One filtering pass of search_businesses (list comprehension over the
previous stage). -/
def bizFilterStep (fil : Option String) (get : BusinessRow → Option String)
    (bs : List BusinessRow) : List BusinessRow :=
  match fil with
  | none => bs
  | some f =>
    if f = "" then bs
    else bs.filter (fun b => strContainsSub (strLower ((get b).getD "")) (strLower f))

/-- The four sequential filtering passes of search_businesses, in the
code's order: industry sector, location, company name, sub-sector. -/
def bizFiltered (industry_sector location company_name sub_sector : Option String)
    (bs : List BusinessRow) : List BusinessRow :=
  bizFilterStep sub_sector (fun b => b.details.subSector)
    (bizFilterStep company_name (fun b => b.details.companyName)
      (bizFilterStep location (fun b => b.details.location)
        (bizFilterStep industry_sector (fun b => b.details.industrySector) bs)))

/-- The rows search_businesses renders: the conjunctively filtered rows,
truncated after filtering by the truthy `limit`. -/
def searchBusinessesRows (industry_sector location company_name sub_sector : Option String)
    (limit : Option Nat) (bs : List BusinessRow) : List BusinessRow :=
  pyListTrunc limit (bizFiltered industry_sector location company_name sub_sector bs)

/-- Rendering of one business entry of search_businesses. -/
def renderBusiness (i : Nat) (b : BusinessRow) : String :=
  toString i ++ ". **" ++ b.details.companyName.getD "Unknown Company" ++ "**\n" ++
  "   Industry: " ++ b.details.industrySector.getD "Unknown" ++ "\n" ++
  "   Sub-sector: " ++ b.details.subSector.getD "N/A" ++ "\n" ++
  "   Location: " ++ b.details.location.getD "Unknown" ++ "\n" ++
  "   Contact: " ++ b.users.user_name.getD "Unknown" ++ " (" ++
    b.users.email.getD "N/A" ++ ")\n" ++
  "   Position: " ++ b.details.positionTitle.getD "N/A" ++ "\n\n"

/-- networking_agent_tools.search_businesses. -/
def search_businesses (tbl : Except String (List BusinessRow))
    (industry_sector location company_name sub_sector : Option String)
    (limit : Option Nat) : String :=
  match tbl with
  | .error e => "Error searching businesses: " ++ e
  | .ok businesses =>
    if businesses.isEmpty then "No businesses found in the database."
    else
      let fb := searchBusinessesRows industry_sector location company_name sub_sector
        limit businesses
      if fb.isEmpty then "No businesses found matching the specified criteria."
      else
        "**Found " ++ toString fb.length ++ " business(es):**\n\n" ++
          String.join ((fb.enumFrom 1).map (fun p => renderBusiness p.1 p.2))

/-- networking_agent_tools.get_user_businesses (exact-match store filter
on the owning user id). -/
def get_user_businesses (tbl : Except String (List BusinessRow)) (user_id : String) : String :=
  match tbl with
  | .error e => "Error fetching user businesses: " ++ e
  | .ok rows =>
    let businesses := rows.filter (fun b => b.user_id == user_id)
    if businesses.isEmpty then "No businesses found for user ID: " ++ user_id
    else
      "**Businesses for User " ++ user_id ++ " (" ++ toString businesses.length ++
        " business(es)):**\n\n" ++
        String.join ((businesses.enumFrom 1).map (fun p =>
          toString p.1 ++ ". **" ++ p.2.details.companyName.getD "Unknown Company" ++ "**\n" ++
          "   Industry: " ++ p.2.details.industrySector.getD "Unknown" ++ "\n" ++
          "   Location: " ++ p.2.details.location.getD "Unknown" ++ "\n" ++
          "   Position: " ++ p.2.details.positionTitle.getD "N/A" ++ "\n\n"))

/-- One update of the insertion-ordered frequency map (Python dict
`d[k] = d.get(k, 0) + 1`). -/
def bumpFreq (k : String) : List (String × Nat) → List (String × Nat)
  | [] => [(k, 1)]
  | (k₂, n) :: rest => if k = k₂ then (k₂, n + 1) :: rest else (k₂, n) :: bumpFreq k rest

/-- Insertion-ordered frequency map of a list of keys. -/
def freqMap (keys : List String) : List (String × Nat) :=
  keys.foldl (fun acc k => bumpFreq k acc) []

/-- Sort of frequency entries by descending count (`sorted(items,
key=count, reverse=True)`); ties are not observed by any claim. -/
def sortDescByCount (xs : List (String × Nat)) : List (String × Nat) :=
  sortByLe (fun a b => b.2 ≤ a.2) xs

/-- networking_agent_tools.get_business_count (two query call sites:
an id-select for the count, a details-select for the stats). -/
def get_business_count (q1 q2 : Except String (List BusinessRow)) : String :=
  match q1 with
  | .error e => "Error getting business count: " ++ e
  | .ok rows =>
    let count := rows.length
    let base := "**Total Registered Businesses:** " ++ toString count
    if count > 0 then
      match q2 with
      | .error e => "Error getting business count: " ++ e
      | .ok full =>
        let industries := freqMap (full.map (fun b => b.details.industrySector.getD "Unknown"))
        let locations := freqMap (full.map (fun b => b.details.location.getD "Unknown"))
        base ++ "\n**Top Industries:**" ++
          String.join (((sortDescByCount industries).take 5).map
            (fun p => "\n- " ++ p.1 ++ ": " ++ toString p.2)) ++
          "\n**Top Locations:**" ++
          String.join (((sortDescByCount locations).take 5).map
            (fun p => "\n- " ++ p.1 ++ ": " ++ toString p.2))
    else base

/-- networking_agent_tools.get_user_count. -/
def get_user_count (tbl : Except String (List UserRow)) : String :=
  match tbl with
  | .error e => "Error getting user count: " ++ e
  | .ok users => "**Total Registered Users:** " ++ toString users.length

/-- OR-matching of search_users_by_name: the term is a case-insensitive
substring of display name, email, first name or last name. -/
def userMatchesTerm (term : String) (u : UserRow) : Bool :=
  strContainsSub (strLower (u.details.user_name.getD "")) (strLower term) ||
  strContainsSub (strLower (u.details.email.getD "")) (strLower term) ||
  strContainsSub (strLower (u.details.firstName.getD "")) (strLower term) ||
  strContainsSub (strLower (u.details.lastName.getD "")) (strLower term)

/-- Rendering of one user entry of search_users_by_name; the display
name falls back (Python `or`) to the stripped first+last concatenation
and finally to a fixed placeholder. -/
def renderUserEntry (i : Nat) (u : UserRow) : String :=
  let fallback := strTrim ((u.details.firstName.getD "") ++ " " ++ (u.details.lastName.getD ""))
  let nm := match u.details.user_name with
    | some s => if s = "" then fallback else s
    | none => fallback
  toString i ++ ". **" ++ (if nm = "" then "Unknown Name" else nm) ++ "**\n" ++
  "   Email: " ++ u.details.email.getD "N/A" ++ "\n" ++
  "   Registration ID: " ++ u.details.registration_id.getD "N/A" ++ "\n\n"

/-- networking_agent_tools.search_users_by_name. -/
def search_users_by_name (tbl : Except String (List UserRow)) (search_term : String)
    (limit : Option Nat) : String :=
  match tbl with
  | .error e => "Error searching users: " ++ e
  | .ok users =>
    if users.isEmpty then "No users found in the database."
    else
      let matching := pyListTrunc limit (users.filter (userMatchesTerm search_term))
      if matching.isEmpty then "No users found matching search term: " ++ search_term
      else
        "**Found " ++ toString matching.length ++ " user(s) matching \x27" ++
          search_term ++ "\x27:**\n\n" ++
          String.join ((matching.enumFrom 1).map (fun p => renderUserEntry p.1 p.2))

/-- One-decimal percentage figure of get_industry_breakdown.  The Python
code formats a float with `:.1f`; this model rounds the exact rational
half up, which may differ from binary-float rounding only in exact
half-way cases; no claim depends on this text. -/
def pct1 (count total : Nat) : String :=
  let tenths := (count * 2000 + total) / (2 * total)
  toString (tenths / 10) ++ "." ++ toString (tenths % 10)

/-- networking_agent_tools.get_industry_breakdown. -/
def get_industry_breakdown (tbl : Except String (List BusinessRow)) : String :=
  match tbl with
  | .error e => "Error getting industry breakdown: " ++ e
  | .ok businesses =>
    if businesses.isEmpty then "No businesses found in the database."
    else
      let industry_counts := freqMap (businesses.map
        (fun b => b.details.industrySector.getD "Unknown"))
      if industry_counts.isEmpty then "No industry data found."
      else
        "**Industry Breakdown (" ++ toString businesses.length ++ " total businesses):**\n\n" ++
          String.join ((sortDescByCount industry_counts).map (fun p =>
            "• **" ++ p.1 ++ ":** " ++ toString p.2 ++ " businesses (" ++
              pct1 p.2 businesses.length ++ "%)\n"))

/-- Schedule-domain trigger terms of determine_agent (main.py). -/
def schedule_keywords : List String :=
  ["session", "sessions", "speaker", "speakers", "schedule", "agenda",
   "track", "tracks", "room", "rooms", "conference", "talk", "talks",
   "presentation", "presentations", "topic", "topics", "time", "when",
   "how many sessions", "how many speakers", "session count", "speaker count"]

/-- Networking-domain trigger terms of determine_agent (main.py). -/
def networking_keywords : List String :=
  ["business", "businesses", "company", "companies", "networking",
   "industry", "sector", "user", "users", "profile", "profiles",
   "connect", "connection", "directory", "how many users", "how many businesses",
   "business count", "user count", "industry breakdown"]

/-- `any(keyword in message_lower for keyword in kws)`. -/
def keywordHit (kws : List String) (message : String) : Bool :=
  kws.any (fun k => strContainsSub (strLower message) k)

/-- main.py determine_agent: keyword routing with fixed precedence —
schedule first, then networking, else triage. -/
def determine_agent (message : String) : AgentId :=
  if keywordHit schedule_keywords message then .schedule
  else if keywordHit networking_keywords message then .networking
  else .triage

/-- main.py create_context.  The single `users` lookup is the oracle
`lookupUser`; a raised lookup error is caught (only logged), a miss
leaves the context untouched. -/
def create_context (registration_id : Option String)
    (lookupUser : String → Except String (Option UserRow)) : AirlineAgentContext :=
  match registration_id with
  | none => emptyContext
  | some rid =>
    match lookupUser rid with
    | .error _ => emptyContext
    | .ok none => emptyContext
    | .ok (some u) =>
      { emptyContext with
        user_id := some u.id,
        registration_id := some rid,
        user_name := u.details.user_name,
        email := u.details.email,
        is_conference_attendee := true,
        conference_name := some "Aviation Tech Summit 2025" }

/-- Literal-phrase trigger of the first schedule fallback branch. -/
def schedTrig1 (m : String) : Bool :=
  strContainsSub (strLower m) "all sessions" || strContainsSub (strLower m) "list sessions"

/-- Literal-phrase trigger of the second schedule fallback branch. -/
def schedTrig2 (m : String) : Bool :=
  strContainsSub (strLower m) "all speakers" || strContainsSub (strLower m) "list speakers"

/-- Literal-phrase trigger of the third schedule fallback branch. -/
def schedTrig3 (m : String) : Bool :=
  strContainsSub (strLower m) "all tracks" || strContainsSub (strLower m) "list tracks"

/-- Literal-phrase trigger of the fourth schedule fallback branch. -/
def schedTrig4 (m : String) : Bool :=
  strContainsSub (strLower m) "all rooms" || strContainsSub (strLower m) "list rooms"

/-- Literal-phrase trigger of the session-count fallback branch. -/
def schedTrig5 (m : String) : Bool :=
  strContainsSub (strLower m) "how many sessions" || strContainsSub (strLower m) "session count"

/-- Literal-phrase trigger of the speaker-count fallback branch. -/
def schedTrig6 (m : String) : Bool :=
  strContainsSub (strLower m) "how many speakers" || strContainsSub (strLower m) "speaker count"

/-- Literal-phrase trigger of the sessions-by-speaker fallback branch. -/
def schedTrig7 (m : String) : Bool :=
  strContainsSub (strLower m) "sessions by" || strContainsSub (strLower m) "speaker"

/-- Literal-phrase trigger of the topic-search fallback branch. -/
def schedTrig8 (m : String) : Bool :=
  strContainsSub (strLower m) "topic" || strContainsSub (strLower m) "about"

/-- Literal-phrase trigger of the first networking fallback branch. -/
def netTrig1 (m : String) : Bool :=
  strContainsSub (strLower m) "all businesses" || strContainsSub (strLower m) "list businesses"

/-- Literal-phrase trigger of the business-count fallback branch. -/
def netTrig2 (m : String) : Bool :=
  strContainsSub (strLower m) "how many businesses" || strContainsSub (strLower m) "business count"

/-- Literal-phrase trigger of the user-count fallback branch. -/
def netTrig3 (m : String) : Bool :=
  strContainsSub (strLower m) "how many users" || strContainsSub (strLower m) "user count"

/-- Literal-phrase trigger of the industry-breakdown fallback branch. -/
def netTrig4 (m : String) : Bool :=
  strContainsSub (strLower m) "industry breakdown"

/-- Literal-phrase trigger of the find-user fallback branch. -/
def netTrig5 (m : String) : Bool :=
  strContainsSub (strLower m) "find user" || strContainsSub (strLower m) "search user"

/-- Industry-name trigger of the industry fallback branch (`any(industry
in message_lower for industry in [...])`). -/
def netTrig6 (m : String) : Bool :=
  strContainsSub (strLower m) "fintech" || strContainsSub (strLower m) "tech" ||
  strContainsSub (strLower m) "healthcare" || strContainsSub (strLower m) "finance"

/-- `" ".join(words[2:]) if len(words) > 2 else ""` over `message.split()`. -/
def joinFromWord2 (message : String) : String :=
  let words := pySplit message
  if words.length > 2 then String.intercalate " " (words.drop 2) else ""

/-- `" ".join(words[1:]) if len(words) > 1 else ""` over `message.split()`. -/
def joinFromWord1 (message : String) : String :=
  let words := pySplit message
  if words.length > 1 then String.intercalate " " (words.drop 1) else ""

/-- Final fallback string of handle_agent_manually, also reached when an
argument-taking branch matches but extracts an empty argument. -/
def iUnderstandMsg (message : String) : String :=
  "I understand you\x27re asking about " ++ message ++
    ", but I need more specific information to help you."

/-- main.py handle_agent_manually: the manual fallback dispatch that
pattern-matches the message against fixed literal phrases and invokes
the matching aggregator directly.  An argument-taking branch whose
extracted argument is empty falls through to the final generic string
(the Python `if speaker_name:` guard skips the `return`). -/
def handle_agent_manually (agent : AgentId) (message : String) (db : Db) : String :=
  match agent with
  | .schedule =>
    if schedTrig1 message then
      get_conference_sessions db.schedules none none none none none (some 10)
    else if schedTrig2 message then get_all_speakers db.schedules
    else if schedTrig3 message then get_all_tracks db.schedules
    else if schedTrig4 message then get_all_rooms db.schedules
    else if schedTrig5 message then get_session_count db.schedules db.schedules
    else if schedTrig6 message then get_speaker_count db.schedules
    else if schedTrig7 message then
      (let speaker_name := joinFromWord2 message
       if speaker_name = "" then iUnderstandMsg message
       else search_sessions_by_speaker db.schedules speaker_name)
    else if schedTrig8 message then
      (let tp := joinFromWord1 message
       if tp = "" then iUnderstandMsg message
       else search_sessions_by_topic db.schedules tp)
    else get_conference_sessions db.schedules none none none none none (some 10)
  | .networking =>
    if netTrig1 message then
      search_businesses db.businesses none none none none (some 10)
    else if netTrig2 message then get_business_count db.businesses db.businesses
    else if netTrig3 message then get_user_count db.users
    else if netTrig4 message then get_industry_breakdown db.businesses
    else if netTrig5 message then
      (let user_name := joinFromWord2 message
       if user_name = "" then iUnderstandMsg message
       else search_users_by_name db.users user_name (some 10))
    else if netTrig6 message then
      (if strContainsSub (strLower message) "fintech" then
        search_businesses db.businesses (some "fintech") none none none (some 10)
       else if strContainsSub (strLower message) "tech" then
        search_businesses db.businesses (some "tech") none none none (some 10)
       else if strContainsSub (strLower message) "healthcare" then
        search_businesses db.businesses (some "healthcare") none none none (some 10)
       else search_businesses db.businesses (some "finance") none none none (some 10))
    else search_businesses db.businesses none none none none (some 10)
  | .triage => iUnderstandMsg message

/-- Customer block of the chat endpoint's best-effort second lookup. -/
structure CustomerBlock where
  name : String
  email : Option String
  registration_id : String
  is_conference_attendee : Bool
  conference_name : String
  bookings : List String
deriving DecidableEq

/-- Customer name of the chat endpoint:
`details.get("user_name", f"{firstName} {lastName}").strip()` — the
first+last fallback is used only when no display name is stored, and
the result is stripped in either case. -/
def chatCustomerName (d : UserDetails) : String :=
  strTrim (d.user_name.getD ((d.firstName.getD "") ++ " " ++ (d.lastName.getD "")))

/-- Customer-info block computation of main.py chat_endpoint: absent
registration id, lookup miss, or any lookup failure (swallowed, only
logged) all leave the block absent. -/
def chatCustomerInfo (registration_id : Option String)
    (lookupUser : String → Except String (Option UserRow)) : Option CustomerBlock :=
  match registration_id with
  | none => none
  | some rid =>
    match lookupUser rid with
    | .error _ => none
    | .ok none => none
    | .ok (some u) =>
      some { name := chatCustomerName u.details,
             email := u.details.email,
             registration_id := rid,
             is_conference_attendee := true,
             conference_name := "Aviation Tech Summit 2025",
             bookings := [] }

/-- Static handler descriptor echoed in every response. -/
structure AgentDescriptor where
  name : String
  description : String
  handoffs : List String
  tools : List String
deriving DecidableEq

/-- The static list of three handler descriptors of main.py. -/
def staticAgents : List AgentDescriptor :=
  [{ name := "Triage Agent",
     description := "Routes queries to appropriate specialists",
     handoffs := ["Schedule Agent", "Networking Agent"], tools := [] },
   { name := "Schedule Agent",
     description := "Conference schedule and speaker information",
     handoffs := ["Triage Agent"],
     tools := ["get_conference_sessions", "get_all_speakers", "get_all_tracks"] },
   { name := "Networking Agent",
     description := "Business networking and connections",
     handoffs := ["Triage Agent"],
     tools := ["search_businesses", "get_user_businesses", "get_business_count"] }]

/-- Response envelope of the chat endpoint. -/
structure ChatResponse where
  conversation_id : String
  current_agent : String
  messages : List (String × String)
  events : List String
  context : AirlineAgentContext
  agents : List AgentDescriptor
  guardrails : List String
  customer_info : Option CustomerBlock
deriving DecidableEq

/-- Envelope assembly of main.py chat_endpoint (the `ChatResponse(...)`
constructor call): always succeeds whatever the optional customer-info
block is; `conversation_id or "new_conversation"` is Python-truthy. -/
def buildChatResponse (conversation_id : Option String) (agentName : String)
    (response_content : String) (ctx : AirlineAgentContext)
    (customer_info : Option CustomerBlock) : ChatResponse :=
  { conversation_id := match conversation_id with
      | some c => if c = "" then "new_conversation" else c
      | none => "new_conversation",
    current_agent := agentName,
    messages := [(response_content, agentName)],
    events := [],
    context := ctx,
    agents := staticAgents,
    guardrails := [],
    customer_info := customer_info }

/-- Session row with only a speaker name set (test fixture). -/
def mkSpeakerRow (o : Option String) : SessionRow :=
  ⟨0, none, o, none, none, none, none, none⟩

/-- Snapshot with three empty collections (test fixture). -/
def dbEmpty : Db := ⟨.ok [], .ok [], .ok []⟩

/-- User whose stored display name has surrounding whitespace. -/
def uAlice : UserRow :=
  ⟨"U1", ⟨some " Alice ", some "alice@example.com", some "Alice", some "Doe", some "R1"⟩⟩

/-- Lookup oracle that always resolves to `uAlice`. -/
def lkAlice : String → Except String (Option UserRow) := fun _ => .ok (some uAlice)

/-- User with an ordinary display name (test fixture). -/
def uBob : UserRow := ⟨"U2", ⟨some "Bob", some "bob@example.com", none, none, some "R2"⟩⟩

/-- Lookup oracle that always resolves to `uBob`. -/
def lkBob : String → Except String (Option UserRow) := fun _ => .ok (some uBob)

/-- Business row in the FinTech industry (test fixture). -/
def bFin : BusinessRow :=
  ⟨1, "U1", ⟨some "Acme Pay", some "FinTech", some "Payments", some "Berlin", some "CTO"⟩,
   ⟨some "Alice", some "alice@example.com"⟩⟩

/-- Business row in the Health industry (test fixture). -/
def bMed : BusinessRow :=
  ⟨2, "U2", ⟨some "Medico", some "Health", none, some "Oslo", none⟩, ⟨some "Bob", none⟩⟩

/-- Claim C1: determine_agent is a deterministic, total, case-insensitive
function of the message text: a schedule-keyword substring hit routes to
the schedule handler; otherwise a networking-keyword hit routes to the
networking handler; otherwise to the triage handler; a message hitting
both keyword sets routes to schedule; every message maps to exactly one
of the three handlers. -/
theorem determine_agent_router_spec :
    (∀ m₁ m₂ : String, strLower m₁ = strLower m₂ → determine_agent m₁ = determine_agent m₂)
    ∧ (∀ m : String, keywordHit schedule_keywords m = true →
        determine_agent m = AgentId.schedule)
    ∧ (∀ m : String, keywordHit schedule_keywords m = false →
        keywordHit networking_keywords m = true → determine_agent m = AgentId.networking)
    ∧ (∀ m : String, keywordHit schedule_keywords m = false →
        keywordHit networking_keywords m = false → determine_agent m = AgentId.triage)
    ∧ (∀ m : String, keywordHit schedule_keywords m = true →
        keywordHit networking_keywords m = true → determine_agent m = AgentId.schedule)
    ∧ (∀ m : String, determine_agent m = AgentId.schedule ∨
        determine_agent m = AgentId.networking ∨ determine_agent m = AgentId.triage) := by
  refine ⟨?_, ?_, ?_, ?_, ?_, ?_⟩
  · intro m₁ m₂ h
    simp only [determine_agent, keywordHit, h]
  · intro m h
    simp [determine_agent, h]
  · intro m h₁ h₂
    simp [determine_agent, h₁, h₂]
  · intro m h₁ h₂
    simp [determine_agent, h₁, h₂]
  · intro m h₁ _
    simp [determine_agent, h₁]
  · intro m
    by_cases h₁ : keywordHit schedule_keywords m = true
    · simp [determine_agent, h₁]
    · by_cases h₂ : keywordHit networking_keywords m = true <;>
        simp [determine_agent, h₁, h₂]

/-- Witness for C1 at the spec's example messages. -/
theorem determine_agent_router_spec_witness :
    determine_agent "What sessions are happening tomorrow?" = AgentId.schedule
    ∧ determine_agent "List fintech companies" = AgentId.networking
    ∧ determine_agent "hi there" = AgentId.triage :=
  ⟨determine_agent_router_spec.2.1 _ (by decide),
   determine_agent_router_spec.2.2.1 _ (by decide) (by decide),
   determine_agent_router_spec.2.2.2.1 _ (by decide) (by decide)⟩

/-- Claim C3: create_context never fails: an absent registration id
yields the empty context (attendee flag false); a lookup error or a
lookup miss also yields the context populated so far, which is the
empty context with attendee flag false. -/
theorem create_context_best_effort_spec :
    (∀ lookupUser : String → Except String (Option UserRow),
        create_context none lookupUser = emptyContext)
    ∧ emptyContext.is_conference_attendee = false
    ∧ (∀ rid (lookupUser : String → Except String (Option UserRow)) e,
        lookupUser rid = .error e → create_context (some rid) lookupUser = emptyContext)
    ∧ (∀ rid (lookupUser : String → Except String (Option UserRow)),
        lookupUser rid = .ok none → create_context (some rid) lookupUser = emptyContext) := by
  refine ⟨fun _ => rfl, rfl, ?_, ?_⟩
  · intro rid lk e h
    simp [create_context, h]
  · intro rid lk h
    simp [create_context, h]

/-- Witness for C3: a failing lookup and a missing lookup both return
the empty context. -/
theorem create_context_best_effort_spec_witness :
    create_context (some "R404") (fun _ => .error "connection refused") = emptyContext
    ∧ create_context (some "R404") (fun _ => .ok none) = emptyContext :=
  ⟨create_context_best_effort_spec.2.2.1 "R404" _ "connection refused" rfl,
   create_context_best_effort_spec.2.2.2 "R404" _ rfl⟩

/-- Claim C4: the attendee flag of the produced context is true iff a
user record was resolved from a supplied registration id, and when it is
true the user id, registration id and conference name are populated. -/
theorem create_context_attendee_invariant_spec :
    ∀ (rid? : Option String) (lookupUser : String → Except String (Option UserRow)),
      ((create_context rid? lookupUser).is_conference_attendee = true ↔
        ∃ rid u, rid? = some rid ∧ lookupUser rid = .ok (some u))
      ∧ ((create_context rid? lookupUser).is_conference_attendee = true →
          (create_context rid? lookupUser).user_id.isSome = true
          ∧ (create_context rid? lookupUser).registration_id.isSome = true
          ∧ (create_context rid? lookupUser).conference_name.isSome = true) := by
  intro rid? lk
  cases rid? with
  | none =>
    refine ⟨⟨fun h => ?_, fun ⟨rid, u, h, _⟩ => by cases h⟩, fun h => ?_⟩
    · exact absurd h (by simp [create_context, emptyContext])
    · exact absurd h (by simp [create_context, emptyContext])
  | some rid =>
    cases hq : lk rid with
    | error e =>
      refine ⟨⟨fun h => ?_, fun ⟨rid₂, u, h₂, hl⟩ => ?_⟩, fun h => ?_⟩
      · exact absurd h (by simp [create_context, hq, emptyContext])
      · cases h₂
        rw [hq] at hl
        cases hl
      · exact absurd h (by simp [create_context, hq, emptyContext])
    | ok uo =>
      cases uo with
      | none =>
        refine ⟨⟨fun h => ?_, fun ⟨rid₂, u, h₂, hl⟩ => ?_⟩, fun h => ?_⟩
        · exact absurd h (by simp [create_context, hq, emptyContext])
        · cases h₂
          rw [hq] at hl
          cases hl
        · exact absurd h (by simp [create_context, hq, emptyContext])
      | some u =>
        refine ⟨⟨fun _ => ⟨rid, u, rfl, hq⟩, fun _ => by simp [create_context, hq]⟩, fun _ => ?_⟩
        refine ⟨?_, ?_, ?_⟩ <;> simp [create_context, hq]

/-- Witness for C4: a successful lookup populates user id, registration
id and conference name. -/
theorem create_context_attendee_invariant_spec_witness :
    (create_context (some "R2") lkBob).user_id.isSome = true
    ∧ (create_context (some "R2") lkBob).registration_id.isSome = true
    ∧ (create_context (some "R2") lkBob).conference_name.isSome = true :=
  (create_context_attendee_invariant_spec (some "R2") lkBob).2 (by decide)

/-- Claim C6: get_speaker_count reports the size of the deduplicated
speaker set after discarding absent, empty and whitespace-only names;
over rows A, A, B, "" it reports 2 unique speakers. -/
theorem get_speaker_count_dedup_spec :
    (∀ rows : List SessionRow, get_speaker_count (.ok rows)
        = "**Total Unique Speakers:** " ++ toString (speakerCountFigure rows))
    ∧ get_speaker_count (.ok [mkSpeakerRow (some "A"), mkSpeakerRow (some "A"),
        mkSpeakerRow (some "B"), mkSpeakerRow (some "")]) = "**Total Unique Speakers:** 2"
    ∧ speakerCountFigure [mkSpeakerRow none, mkSpeakerRow (some ""),
        mkSpeakerRow (some "   "), mkSpeakerRow (some "A")] = 1 := by
  refine ⟨?_, by decide, by decide⟩
  intro rows
  cases rows with
  | nil => decide
  | cons a as => rfl

/-- Claim C10: the row caps are applied only when the limit is a truthy
(positive) number: limit 0 and limit None disable truncation both at the
query gateway and in search_businesses, where every row passing the
filters is kept. -/
theorem limit_truthiness_spec :
    (∀ (α : Type) (rows : List α), gatewayLimit none rows = rows)
    ∧ (∀ (α : Type) (rows : List α), gatewayLimit (some 0) rows = rows)
    ∧ (∀ (α : Type) (n : Nat) (rows : List α), 0 < n → gatewayLimit (some n) rows = rows.take n)
    ∧ (∀ (α : Type) (xs : List α), pyListTrunc none xs = xs)
    ∧ (∀ (α : Type) (xs : List α), pyListTrunc (some 0) xs = xs)
    ∧ (∀ (α : Type) (n : Nat) (xs : List α), 0 < n → pyListTrunc (some n) xs = xs.take n)
    ∧ (∀ i l c s bs, searchBusinessesRows i l c s none bs = bizFiltered i l c s bs)
    ∧ (∀ i l c s bs, searchBusinessesRows i l c s (some 0) bs = bizFiltered i l c s bs) := by
  refine ⟨fun _ _ => rfl, fun _ _ => rfl, ?_, fun _ _ => rfl, fun _ _ => rfl, ?_,
    fun _ _ _ _ _ => rfl, fun _ _ _ _ _ => rfl⟩
  · intro α n rows h
    simp [gatewayLimit, Nat.pos_iff_ne_zero.mp h]
  · intro α n xs h
    simp [pyListTrunc, Nat.pos_iff_ne_zero.mp h]

/-- Witness for C10 at a concrete positive limit. -/
theorem limit_truthiness_spec_witness :
    gatewayLimit (some 2) ["a", "b", "c"] = ["a", "b", "c"].take 2 :=
  limit_truthiness_spec.2.2.1 String 2 ["a", "b", "c"] (by decide)

/-- One filtering pass is a `List.filter` by the matching predicate. -/
theorem bizFilterStep_eq_filter (fil : Option String) (get : BusinessRow → Option String)
    (bs : List BusinessRow) :
    bizFilterStep fil get bs = bs.filter (fun b => bizMatchOpt fil get b) := by
  cases fil with
  | none => simp [bizFilterStep, bizMatchOpt]
  | some f => by_cases hf : f = "" <;> simp [bizFilterStep, bizMatchOpt, hf]

/-- Two successive filters collapse to one conjunctive filter. -/
theorem filterFilterBool (p q : α → Bool) (l : List α) :
    (l.filter p).filter q = l.filter (fun a => p a && q a) := by
  induction l with
  | nil => rfl
  | cons a as ih =>
    by_cases hp : p a = true
    · by_cases hq : q a = true <;> simp [List.filter_cons, hp, hq, ih]
    · simp [List.filter_cons, hp, ih]

/-- Truthy truncation only drops rows. -/
theorem pyListTrunc_sub (limit : Option Nat) (xs : List α) : pyListTrunc limit xs ⊆ xs := by
  cases limit with
  | none => simp [pyListTrunc]
  | some n =>
    by_cases h : n = 0
    · simp [pyListTrunc, h]
    · simp only [pyListTrunc, if_neg h]
      exact List.take_subset n xs

/-- One filtering pass only drops rows. -/
theorem bizFilterStep_sub (fil : Option String) (get : BusinessRow → Option String)
    (bs : List BusinessRow) : bizFilterStep fil get bs ⊆ bs := by
  rw [bizFilterStep_eq_filter]
  intro x hx
  exact List.mem_of_mem_filter hx

/-- The four filtering passes only drop rows. -/
theorem bizFiltered_sub (f₁ f₂ f₃ f₄ : Option String) (bs : List BusinessRow) :
    bizFiltered f₁ f₂ f₃ f₄ bs ⊆ bs := by
  intro x hx
  exact bizFilterStep_sub _ _ _ (bizFilterStep_sub _ _ _
    (bizFilterStep_sub _ _ _ (bizFilterStep_sub _ _ _ hx)))

/-- Claim C2: for every business collection and non-empty industry
filter, search_businesses renders exactly the rows whose industry sector
contains the filter case-insensitively; the rendered rows are a subset
of the rows of the unfiltered search; the four optional filters act
conjunctively; and the truthy limit prefix-truncates after filtering to
at most `limit` rows (the tool's default limit is 10). -/
theorem search_businesses_industry_filter_spec :
    ∀ (bs : List BusinessRow) (ind : String), ind ≠ "" →
      (bizFiltered (some ind) none none none bs
          = bs.filter (fun b =>
              strContainsSub (strLower (b.details.industrySector.getD "")) (strLower ind)))
      ∧ (searchBusinessesRows none none none none none bs = bs)
      ∧ (∀ limit, searchBusinessesRows (some ind) none none none limit bs
            ⊆ searchBusinessesRows none none none none none bs)
      ∧ (∀ loc comp sub, bizFiltered (some ind) loc comp sub bs
            = bs.filter (fun b =>
                bizMatchOpt (some ind) (fun b₂ => b₂.details.industrySector) b &&
                (bizMatchOpt loc (fun b₂ => b₂.details.location) b &&
                  (bizMatchOpt comp (fun b₂ => b₂.details.companyName) b &&
                    bizMatchOpt sub (fun b₂ => b₂.details.subSector) b))))
      ∧ (∀ n, searchBusinessesRows (some ind) none none none (some (n + 1)) bs
            = (bizFiltered (some ind) none none none bs).take (n + 1))
      ∧ (∀ n, (searchBusinessesRows (some ind) none none none (some (n + 1)) bs).length
            ≤ n + 1) := by
  intro bs ind hind
  have hunf : searchBusinessesRows none none none none none bs = bs := by
    simp [searchBusinessesRows, pyListTrunc, bizFiltered, bizFilterStep]
  refine ⟨?_, hunf, ?_, ?_, ?_, ?_⟩
  · simp [bizFiltered, bizFilterStep, hind]
  · intro limit x hx
    rw [hunf]
    exact bizFiltered_sub _ _ _ _ _ (pyListTrunc_sub _ _ hx)
  · intro loc comp sub
    unfold bizFiltered
    rw [bizFilterStep_eq_filter, bizFilterStep_eq_filter, bizFilterStep_eq_filter,
      bizFilterStep_eq_filter, filterFilterBool, filterFilterBool, filterFilterBool]
  · intro n
    simp [searchBusinessesRows, pyListTrunc]
  · intro n
    simp [searchBusinessesRows, pyListTrunc, List.length_take]

/-- Witness for C2: the "tech" industry filter over a two-row collection
keeps exactly the FinTech row, a subset of the unfiltered search. -/
theorem search_businesses_industry_filter_spec_witness :
    bizFiltered (some "tech") none none none [bFin, bMed]
        = [bFin, bMed].filter (fun b =>
            strContainsSub (strLower (b.details.industrySector.getD "")) (strLower "tech"))
    ∧ searchBusinessesRows (some "tech") none none none (some 10) [bFin, bMed]
        ⊆ searchBusinessesRows none none none none none [bFin, bMed] :=
  ⟨(search_businesses_industry_filter_spec [bFin, bMed] "tech" (by decide)).1,
   (search_businesses_industry_filter_spec [bFin, bMed] "tech" (by decide)).2.2.1 (some 10)⟩

/-- Claim C5: every schedule and networking aggregator catches any error
raised by its underlying queries and returns a formatted error string
instead of propagating; for the two-query count aggregators this holds
at both call sites. -/
theorem aggregators_catch_lookup_errors_spec :
    (∀ e sp tp rm tr dt lim, get_conference_sessions (.error e) sp tp rm tr dt lim
        = "Error fetching conference sessions: " ++ e)
    ∧ (∀ e, get_all_speakers (.error e) = "Error fetching speakers: " ++ e)
    ∧ (∀ e, get_all_tracks (.error e) = "Error fetching tracks: " ++ e)
    ∧ (∀ e, get_all_rooms (.error e) = "Error fetching rooms: " ++ e)
    ∧ (∀ e sn, search_sessions_by_speaker (.error e) sn = "Error searching sessions: " ++ e)
    ∧ (∀ e kw, search_sessions_by_topic (.error e) kw = "Error searching sessions: " ++ e)
    ∧ (∀ e q₂, get_session_count (.error e) q₂ = "Error getting session count: " ++ e)
    ∧ (∀ s e, s ≠ [] →
        get_session_count (.ok s) (.error e) = "Error getting session count: " ++ e)
    ∧ (∀ e, get_speaker_count (.error e) = "Error getting speaker count: " ++ e)
    ∧ (∀ e i l c s lim, search_businesses (.error e) i l c s lim
        = "Error searching businesses: " ++ e)
    ∧ (∀ e uid, get_user_businesses (.error e) uid = "Error fetching user businesses: " ++ e)
    ∧ (∀ e q₂, get_business_count (.error e) q₂ = "Error getting business count: " ++ e)
    ∧ (∀ bs e, bs ≠ [] →
        get_business_count (.ok bs) (.error e) = "Error getting business count: " ++ e)
    ∧ (∀ e, get_user_count (.error e) = "Error getting user count: " ++ e)
    ∧ (∀ e t lim, search_users_by_name (.error e) t lim = "Error searching users: " ++ e)
    ∧ (∀ e, get_industry_breakdown (.error e) = "Error getting industry breakdown: " ++ e) := by
  refine ⟨fun _ _ _ _ _ _ _ => rfl, fun _ => rfl, fun _ => rfl, fun _ => rfl,
    fun _ _ => rfl, fun _ _ => rfl, fun _ _ => rfl, ?_, fun _ => rfl,
    fun _ _ _ _ _ _ => rfl, fun _ _ => rfl, fun _ _ => rfl, ?_, fun _ => rfl,
    fun _ _ _ => rfl, fun _ => rfl⟩
  · intro s e h
    cases s with
    | nil => exact absurd rfl h
    | cons a as => simp [get_session_count]
  · intro bs e h
    cases bs with
    | nil => exact absurd rfl h
    | cons a as => simp [get_business_count]

/-- Witness for C5: the second query of each count aggregator failing on
a nonempty first result still yields the formatted error string. -/
theorem aggregators_catch_lookup_errors_spec_witness :
    get_session_count (.ok [mkSpeakerRow (some "A")]) (.error "boom")
        = "Error getting session count: boom"
    ∧ get_business_count (.ok [bFin]) (.error "boom")
        = "Error getting business count: boom" :=
  ⟨aggregators_catch_lookup_errors_spec.2.2.2.2.2.2.2.1 [mkSpeakerRow (some "A")] "boom"
      (by decide),
   aggregators_catch_lookup_errors_spec.2.2.2.2.2.2.2.2.2.2.2.2.1 [bFin] "boom" (by decide)⟩

/-- Counterexample to C7: the message "speaker" dispatched to the
schedule handler matches the argument-taking sessions-by-speaker phrase
but has no extractable argument, so handle_agent_manually returns the
generic fallback string, which differs from every schedule aggregator
output on a concrete snapshot (and from the matched aggregator applied
to the extracted empty remainder). -/
theorem handle_agent_manually_claim_cx :
    handle_agent_manually .schedule "speaker" dbEmpty = iUnderstandMsg "speaker"
    ∧ iUnderstandMsg "speaker"
        ≠ get_conference_sessions dbEmpty.schedules none none none none none (some 10)
    ∧ iUnderstandMsg "speaker" ≠ get_all_speakers dbEmpty.schedules
    ∧ iUnderstandMsg "speaker" ≠ get_all_tracks dbEmpty.schedules
    ∧ iUnderstandMsg "speaker" ≠ get_all_rooms dbEmpty.schedules
    ∧ iUnderstandMsg "speaker" ≠ get_session_count dbEmpty.schedules dbEmpty.schedules
    ∧ iUnderstandMsg "speaker" ≠ get_speaker_count dbEmpty.schedules
    ∧ iUnderstandMsg "speaker"
        ≠ search_sessions_by_speaker dbEmpty.schedules (joinFromWord2 "speaker")
    ∧ iUnderstandMsg "speaker"
        ≠ search_sessions_by_topic dbEmpty.schedules (joinFromWord1 "speaker") := by
  decide

/-- Claim C7 (amended): every message manually dispatched to the
schedule or networking handler is answered by the aggregator matched by
a fixed literal phrase (with the remainder of the message as argument),
by the handler's primary list-all aggregator when no phrase matches —
except that an argument-taking phrase matching with an empty extracted
remainder yields the generic fallback string instead. -/
theorem handle_agent_manually_amended_spec :
    ∀ (m : String) (db : Db),
      (schedTrig1 m = true →
        handle_agent_manually .schedule m db
          = get_conference_sessions db.schedules none none none none none (some 10))
      ∧ (schedTrig1 m = false → schedTrig2 m = true →
        handle_agent_manually .schedule m db = get_all_speakers db.schedules)
      ∧ (schedTrig1 m = false → schedTrig2 m = false → schedTrig3 m = true →
        handle_agent_manually .schedule m db = get_all_tracks db.schedules)
      ∧ (schedTrig1 m = false → schedTrig2 m = false → schedTrig3 m = false →
        schedTrig4 m = true →
        handle_agent_manually .schedule m db = get_all_rooms db.schedules)
      ∧ (schedTrig1 m = false → schedTrig2 m = false → schedTrig3 m = false →
        schedTrig4 m = false → schedTrig5 m = true →
        handle_agent_manually .schedule m db = get_session_count db.schedules db.schedules)
      ∧ (schedTrig1 m = false → schedTrig2 m = false → schedTrig3 m = false →
        schedTrig4 m = false → schedTrig5 m = false → schedTrig6 m = true →
        handle_agent_manually .schedule m db = get_speaker_count db.schedules)
      ∧ (schedTrig1 m = false → schedTrig2 m = false → schedTrig3 m = false →
        schedTrig4 m = false → schedTrig5 m = false → schedTrig6 m = false →
        schedTrig7 m = true → joinFromWord2 m ≠ "" →
        handle_agent_manually .schedule m db
          = search_sessions_by_speaker db.schedules (joinFromWord2 m))
      ∧ (schedTrig1 m = false → schedTrig2 m = false → schedTrig3 m = false →
        schedTrig4 m = false → schedTrig5 m = false → schedTrig6 m = false →
        schedTrig7 m = true → joinFromWord2 m = "" →
        handle_agent_manually .schedule m db = iUnderstandMsg m)
      ∧ (schedTrig1 m = false → schedTrig2 m = false → schedTrig3 m = false →
        schedTrig4 m = false → schedTrig5 m = false → schedTrig6 m = false →
        schedTrig7 m = false → schedTrig8 m = true → joinFromWord1 m ≠ "" →
        handle_agent_manually .schedule m db
          = search_sessions_by_topic db.schedules (joinFromWord1 m))
      ∧ (schedTrig1 m = false → schedTrig2 m = false → schedTrig3 m = false →
        schedTrig4 m = false → schedTrig5 m = false → schedTrig6 m = false →
        schedTrig7 m = false → schedTrig8 m = true → joinFromWord1 m = "" →
        handle_agent_manually .schedule m db = iUnderstandMsg m)
      ∧ (schedTrig1 m = false → schedTrig2 m = false → schedTrig3 m = false →
        schedTrig4 m = false → schedTrig5 m = false → schedTrig6 m = false →
        schedTrig7 m = false → schedTrig8 m = false →
        handle_agent_manually .schedule m db
          = get_conference_sessions db.schedules none none none none none (some 10))
      ∧ (netTrig1 m = true →
        handle_agent_manually .networking m db
          = search_businesses db.businesses none none none none (some 10))
      ∧ (netTrig1 m = false → netTrig2 m = true →
        handle_agent_manually .networking m db
          = get_business_count db.businesses db.businesses)
      ∧ (netTrig1 m = false → netTrig2 m = false → netTrig3 m = true →
        handle_agent_manually .networking m db = get_user_count db.users)
      ∧ (netTrig1 m = false → netTrig2 m = false → netTrig3 m = false →
        netTrig4 m = true →
        handle_agent_manually .networking m db = get_industry_breakdown db.businesses)
      ∧ (netTrig1 m = false → netTrig2 m = false → netTrig3 m = false →
        netTrig4 m = false → netTrig5 m = true → joinFromWord2 m ≠ "" →
        handle_agent_manually .networking m db
          = search_users_by_name db.users (joinFromWord2 m) (some 10))
      ∧ (netTrig1 m = false → netTrig2 m = false → netTrig3 m = false →
        netTrig4 m = false → netTrig5 m = true → joinFromWord2 m = "" →
        handle_agent_manually .networking m db = iUnderstandMsg m)
      ∧ (netTrig1 m = false → netTrig2 m = false → netTrig3 m = false →
        netTrig4 m = false → netTrig5 m = false →
        strContainsSub (strLower m) "fintech" = true →
        handle_agent_manually .networking m db
          = search_businesses db.businesses (some "fintech") none none none (some 10))
      ∧ (netTrig1 m = false → netTrig2 m = false → netTrig3 m = false →
        netTrig4 m = false → netTrig5 m = false →
        strContainsSub (strLower m) "fintech" = false →
        strContainsSub (strLower m) "tech" = true →
        handle_agent_manually .networking m db
          = search_businesses db.businesses (some "tech") none none none (some 10))
      ∧ (netTrig1 m = false → netTrig2 m = false → netTrig3 m = false →
        netTrig4 m = false → netTrig5 m = false →
        strContainsSub (strLower m) "fintech" = false →
        strContainsSub (strLower m) "tech" = false →
        strContainsSub (strLower m) "healthcare" = true →
        handle_agent_manually .networking m db
          = search_businesses db.businesses (some "healthcare") none none none (some 10))
      ∧ (netTrig1 m = false → netTrig2 m = false → netTrig3 m = false →
        netTrig4 m = false → netTrig5 m = false →
        strContainsSub (strLower m) "fintech" = false →
        strContainsSub (strLower m) "tech" = false →
        strContainsSub (strLower m) "healthcare" = false →
        strContainsSub (strLower m) "finance" = true →
        handle_agent_manually .networking m db
          = search_businesses db.businesses (some "finance") none none none (some 10))
      ∧ (netTrig1 m = false → netTrig2 m = false → netTrig3 m = false →
        netTrig4 m = false → netTrig5 m = false → netTrig6 m = false →
        handle_agent_manually .networking m db
          = search_businesses db.businesses none none none none (some 10)) := by
  intro m db
  refine ⟨?_, ?_, ?_, ?_, ?_, ?_, ?_, ?_, ?_, ?_, ?_, ?_, ?_, ?_, ?_, ?_, ?_, ?_, ?_,
    ?_, ?_, ?_⟩ <;>
    · intros
      simp_all [handle_agent_manually, netTrig6]

/-- Witness for C7's amended theorem at two concrete branches. -/
theorem handle_agent_manually_amended_spec_witness :
    handle_agent_manually .schedule "list sessions" dbEmpty
      = get_conference_sessions dbEmpty.schedules none none none none none (some 10)
    ∧ handle_agent_manually .networking "find user Jane Doe" dbEmpty
      = search_users_by_name dbEmpty.users (joinFromWord2 "find user Jane Doe") (some 10) :=
  ⟨(handle_agent_manually_amended_spec "list sessions" dbEmpty).1 (by decide),
   (handle_agent_manually_amended_spec "find user Jane Doe" dbEmpty).2.2.2.2.2.2.2.2.2.2.2.2.2.2.2.1
     (by decide) (by decide) (by decide) (by decide) (by decide) (by decide)⟩

/-- Counterexample to C8: on a hit the rendered customer name is the
stored display name with surrounding whitespace stripped, not the stored
display name itself — here " Alice " is rendered as "Alice". -/
theorem chat_customer_info_claim_cx :
    (chatCustomerInfo (some "R1") lkAlice).map CustomerBlock.name = some "Alice"
    ∧ uAlice.details.user_name = some " Alice "
    ∧ ("Alice" : String) ≠ " Alice " := by
  decide

/-- Claim C8 (amended): whenever a registration id is supplied, the
customer-info block is built by a best-effort lookup: on a hit the
customer name is the stored display name stripped of surrounding
whitespace, falling back to the stripped first+last-name concatenation
when no display name is stored; on a miss or any lookup failure the
failure is swallowed and the block is absent, while the rest of the
envelope is assembled unchanged. -/
theorem chat_customer_info_amended_spec :
    ∀ (lookupUser : String → Except String (Option UserRow)),
      (chatCustomerInfo none lookupUser = none)
      ∧ (∀ rid e, lookupUser rid = .error e → chatCustomerInfo (some rid) lookupUser = none)
      ∧ (∀ rid, lookupUser rid = .ok none → chatCustomerInfo (some rid) lookupUser = none)
      ∧ (∀ rid u n, lookupUser rid = .ok (some u) → u.details.user_name = some n →
          (chatCustomerInfo (some rid) lookupUser).map CustomerBlock.name
            = some (strTrim n))
      ∧ (∀ rid u, lookupUser rid = .ok (some u) → u.details.user_name = none →
          (chatCustomerInfo (some rid) lookupUser).map CustomerBlock.name
            = some (strTrim ((u.details.firstName.getD "") ++ " " ++
                (u.details.lastName.getD ""))))
      ∧ (∀ rid u, lookupUser rid = .ok (some u) →
          chatCustomerInfo (some rid) lookupUser
            = some { name := chatCustomerName u.details, email := u.details.email,
                     registration_id := rid, is_conference_attendee := true,
                     conference_name := "Aviation Tech Summit 2025", bookings := [] })
      ∧ (∀ cid ag content ctx ci₁ ci₂,
          (buildChatResponse cid ag content ctx ci₁).conversation_id
            = (buildChatResponse cid ag content ctx ci₂).conversation_id
          ∧ (buildChatResponse cid ag content ctx ci₁).current_agent
            = (buildChatResponse cid ag content ctx ci₂).current_agent
          ∧ (buildChatResponse cid ag content ctx ci₁).messages
            = (buildChatResponse cid ag content ctx ci₂).messages
          ∧ (buildChatResponse cid ag content ctx ci₁).context
            = (buildChatResponse cid ag content ctx ci₂).context
          ∧ (buildChatResponse cid ag content ctx ci₁).agents
            = (buildChatResponse cid ag content ctx ci₂).agents)
      ∧ (∀ cid ag content ctx,
          (buildChatResponse cid ag content ctx none).customer_info = none) := by
  intro lk
  refine ⟨rfl, ?_, ?_, ?_, ?_, ?_, ?_, fun _ _ _ _ => rfl⟩
  · intro rid e h
    simp [chatCustomerInfo, h]
  · intro rid h
    simp [chatCustomerInfo, h]
  · intro rid u n h hn
    simp [chatCustomerInfo, h, chatCustomerName, hn]
  · intro rid u h hn
    simp [chatCustomerInfo, h, chatCustomerName, hn]
  · intro rid u h
    simp [chatCustomerInfo, h]
  · intro cid ag content ctx ci₁ ci₂
    exact ⟨rfl, rfl, rfl, rfl, rfl⟩

/-- Witness for C8: a failing second lookup leaves the block absent. -/
theorem chat_customer_info_amended_spec_witness :
    chatCustomerInfo (some "R9") (fun _ => .error "connection refused") = none :=
  (chat_customer_info_amended_spec _).2.1 "R9" "connection refused" rfl

/-- Counterexample to C9: on a collection whose only speaker name is the
whitespace-only string " ", get_session_count's additional stats report
one unique speaker while get_speaker_count reports zero. -/
theorem unique_speaker_figures_claim_cx :
    sessionStatSpeakers [mkSpeakerRow (some " ")] = 1
    ∧ speakerCountFigure [mkSpeakerRow (some " ")] = 0
    ∧ get_session_count (.ok [mkSpeakerRow (some " ")]) (.ok [mkSpeakerRow (some " ")])
        = "**Total Conference Sessions:** 1\n**Additional Stats:**"
          ++ "\n- Unique Speakers: 1\n- Unique Tracks: 0\n- Unique Rooms: 0"
    ∧ get_speaker_count (.ok [mkSpeakerRow (some " ")]) = "**Total Unique Speakers:** 0" := by
  decide

/-- Claim C9 (amended): the unique-speaker figure of get_session_count's
additional stats agrees with get_speaker_count's figure over the same
rows whenever no row carries a nonempty whitespace-only speaker name
(get_session_count keeps such names, get_speaker_count discards them). -/
theorem unique_speaker_figures_amended_spec :
    ∀ rows : List SessionRow,
      (∀ r ∈ rows, strTrim (r.speaker_name.getD "") = "" → r.speaker_name.getD "" = "") →
      sessionStatSpeakers rows = speakerCountFigure rows := by
  intro rows h
  unfold sessionStatSpeakers speakerCountFigure
  have hf : rows.filterMap (fun r => if pyTruthy r.speaker_name then r.speaker_name else none)
      = rows.filterMap (fun r => if keepName r.speaker_name then r.speaker_name else none) := by
    induction rows with
    | nil => rfl
    | cons a as ih =>
      have ha := h a (List.mem_cons_self a as)
      have hrest := ih (fun r hr => h r (List.mem_cons_of_mem a hr))
      cases hs : a.speaker_name with
      | none =>
        have h₁ : (if pyTruthy a.speaker_name then a.speaker_name else none) = none := by
          simp [hs, pyTruthy]
        have h₂ : (if keepName a.speaker_name then a.speaker_name else none) = none := by
          simp [hs, keepName, pyTruthy]
        simp only [List.filterMap_cons, h₁, h₂]
        exact hrest
      | some s =>
        by_cases hse : s = ""
        · have h₁ : (if pyTruthy a.speaker_name then a.speaker_name else none) = none := by
            simp [hs, hse, pyTruthy]
          have h₂ : (if keepName a.speaker_name then a.speaker_name else none) = none := by
            simp [hs, hse, keepName, pyTruthy]
          simp only [List.filterMap_cons, h₁, h₂]
          exact hrest
        · have htr : strTrim s ≠ "" := by
            intro hts
            rw [hs] at ha
            exact hse (ha hts)
          have h₁ : (if pyTruthy a.speaker_name then a.speaker_name else none) = some s := by
            simp [hs, pyTruthy, hse]
          have h₂ : (if keepName a.speaker_name then a.speaker_name else none) = some s := by
            simp [hs, keepName, pyTruthy, hse, htr]
          simp only [List.filterMap_cons, h₁, h₂]
          rw [hrest]
  rw [hf]

/-- Witness for C9 over a collection with an ordinary, an empty and an
absent speaker name. -/
theorem unique_speaker_figures_amended_spec_witness :
    sessionStatSpeakers [mkSpeakerRow (some "A"), mkSpeakerRow (some ""), mkSpeakerRow none]
      = speakerCountFigure
          [mkSpeakerRow (some "A"), mkSpeakerRow (some ""), mkSpeakerRow none] :=
  unique_speaker_figures_amended_spec _ (by decide)
